import Mathlib

/-!
# Verification of the eg-react front-end core

Shallow embedding of the track-interaction container
(`src/v1/src/components/trackContainers/TrackContainer.js`), the genome
navigator (`GenomeNavigator`, `src/unnamed/part_000`), the 3-D chromosome
model cache (`GenomeModelService`, `src/unnamed/part_001`) and the Hi-C
track configuration (`HicTrackConfig.ts`), together with proofs of the
testable properties stated in the specification.

JavaScript numbers are modelled as rationals (`ℚ`); JavaScript exceptions
and rejected promises are modelled with `Option`/`Except`; the mutable
per-instance caches are modelled by explicit state passing.
-/

/-! ## Track model (`TrackModel`, value semantics)

A `TrackModel` carries an identity, display configuration and an
`isSelected` flag.  `clone` produces a value-equal copy, so in the
embedding a clone is the value itself; mutation of a clone becomes a
functional record update. -/

/-- A track descriptor: identity, display configuration (collapsed into one
opaque `payload` field, since the container never inspects it) and the
selection flag. -/
structure TrackModel where
  id : String
  payload : String
  isSelected : Bool
deriving DecidableEq, Repr

/-- Mouse buttons, as compared against `MouseButtons.LEFT` in
`TrackContainer.trackClicked`. -/
inductive MouseButton where
  | left
  | middle
  | right
deriving DecidableEq, Repr

namespace MouseButtons

/-- `MouseButtons.LEFT` from `util`. -/
def LEFT : MouseButton := MouseButton.left

end MouseButtons

/-- `TrackContainer.toggleOneTrack(tracks, index)`: replaces
`tracks[index]` by a clone whose `isSelected` is negated.  In JavaScript an
out-of-range `index` throws (calling `.clone()` on `undefined`), modelled
here as `none`. -/
def toggleOneTrack (tracks : List TrackModel) (index : Nat) :
    Option (List TrackModel) :=
  (tracks[index]?).map fun t =>
    tracks.set index { t with isSelected := !t.isSelected }

/-- `TrackContainer.trackClicked(event, index)`: when the event is a
left-button click with the control key held, emits (via `onTracksChanged`)
the collection with track `index` toggled; otherwise emits nothing.
The result is the emitted collection, `none` when nothing is emitted. -/
def trackClicked (button : MouseButton) (ctrlKey : Bool)
    (tracks : List TrackModel) (index : Nat) : Option (List TrackModel) :=
  if button = MouseButtons.LEFT ∧ ctrlKey = true then
    toggleOneTrack tracks index
  else
    none

/-- `TrackContainer.deselectAllTracks()`: a copy of the collection where
every selected track is replaced by a deselected clone and unselected
tracks are kept as the same element. -/
def deselectAllTracks (tracks : List TrackModel) : List TrackModel :=
  tracks.map fun track =>
    if track.isSelected then { track with isSelected := false } else track

/-- `TrackContainer.handleOutsideClick(event)`: when some track is
selected, emits the deselected collection via `onTracksChanged`; otherwise
emits nothing.  The result is the emitted collection, `none` when nothing
is emitted. -/
def handleOutsideClick (tracks : List TrackModel) :
    Option (List TrackModel) :=
  if tracks.any (fun track => track.isSelected) then
    some (deselectAllTracks tracks)
  else
    none

/-! ## Hi-C track configuration (`HicTrackConfig.ts`) -/

/-- The track options inspected by `HicTrackConfig`: the two fields the
refetch predicate reads (`normalization`, `binSize`) plus representative
display-only options (`color`, `displayMode`) that it ignores. -/
structure TrackOptions where
  normalization : String
  binSize : String
  color : String
  displayMode : String
deriving DecidableEq, Repr

/-- `HicTrackConfig.shouldFetchBecauseOptionChange(oldOptions, newOptions)`:
`oldOptions.normalization !== newOptions.normalization ||
oldOptions.binSize !== newOptions.binSize`. -/
def shouldFetchBecauseOptionChange (oldOptions newOptions : TrackOptions) :
    Bool :=
  oldOptions.normalization != newOptions.normalization ||
    oldOptions.binSize != newOptions.binSize

/-! ## View region and the navigator's minimum-width guard

`DisplayedRegionModel` itself is not part of the provided sources (only the
navigator that drives it is), so its operations are modelled from the
specification; the guard `_setModelState` is translated from
`GenomeNavigator` (`src/unnamed/part_000`, lines 73-80). -/

/-- Modelled from the spec: `DisplayedRegionModel` (not under the provided
sources), "a navigational interval over a coordinate space" that "supports
zoom (scale by factor around a focal point) and explicit range-set"; the
interval is an absolute base-pair span. -/
structure DisplayedRegionModel where
  start : ℚ
  stop : ℚ
deriving DecidableEq, Repr

/-- Modelled from the spec: `DisplayedRegionModel#getWidth`, the span of
the interval. -/
def DisplayedRegionModel.getWidth (r : DisplayedRegionModel) : ℚ :=
  r.stop - r.start

/-- Modelled from the spec: `DisplayedRegionModel#zoom(amount, focusPoint)`
scales the interval by the factor `amount` around the focal point. -/
def DisplayedRegionModel.zoom (r : DisplayedRegionModel)
    (amount focusPoint : ℚ) : DisplayedRegionModel :=
  { start := focusPoint - (focusPoint - r.start) * amount
    stop := focusPoint + (r.stop - focusPoint) * amount }

/-- Modelled from the spec: `DisplayedRegionModel#setRegion(newStart,
newEnd)`, the explicit range-set. -/
def DisplayedRegionModel.setRegion (_ : DisplayedRegionModel)
    (newStart newEnd : ℚ) : DisplayedRegionModel :=
  { start := newStart, stop := newEnd }

/-- `GenomeNavigator._setModelState(methodName, args)`: the mutated copy
becomes the new state unless its width is below `MIN_VIEW_REGION_SIZE`, in
which case the method returns without updating and the previous region is
kept.  `minViewRegionSize` stands for the imported constant
`MIN_VIEW_REGION_SIZE`. -/
def setModelState (minViewRegionSize : ℚ)
    (current next : DisplayedRegionModel) : DisplayedRegionModel :=
  if next.getWidth < minViewRegionSize then current else next

/-- `GenomeNavigator.zoom(amount, focusPoint)`: `_setModelState("zoom",
[amount, focusPoint])`. -/
def navigatorZoom (minViewRegionSize : ℚ) (current : DisplayedRegionModel)
    (amount focusPoint : ℚ) : DisplayedRegionModel :=
  setModelState minViewRegionSize current (current.zoom amount focusPoint)

/-- `GenomeNavigator.setNewView(newStart, newEnd)`:
`_setModelState("setRegion", [newStart, newEnd])`. -/
def navigatorSetNewView (minViewRegionSize : ℚ)
    (current : DisplayedRegionModel) (newStart newEnd : ℚ) :
    DisplayedRegionModel :=
  setModelState minViewRegionSize current
    (current.setRegion newStart newEnd)

/-! ## GenomeModelService (`src/unnamed/part_001`)

The service caches `ChromosomeModelDetails` keyed by chromosome id.  The
cache object `loadedChromosomes` is modelled as an association list where
an assignment conses the new binding (JavaScript property assignment
overwrites; `List.lookup` returns the newest binding, so the two agree).
The network fetch of `loadChromosomeAsync` becomes an explicit parameter:
`none` stands for a rejected fetch (the exception propagates before the
cache is touched), `some data` for the parsed JSON document. -/

/-- A 3-D point (`THREE.Vector3`) as parsed from the fetched JSON
document; the parsed coordinates are finite numbers. -/
structure Vec3 where
  x : ℚ
  y : ℚ
  z : ℚ
deriving DecidableEq, Repr

/-- A JavaScript number as it occurs in the geometry computation: a
finite value (kept exact as `ℚ`), one of the two infinities (the corners
of an empty `THREE.Box3` and the axis lengths derived from them), or
`NaN` (the scale ranges derived from an empty or degenerate box).
Negative zero is identified with zero; the service never distinguishes
them. -/
inductive JSNum where
  | finite (val : ℚ)
  | posInf
  | negInf
  | nan
deriving DecidableEq, Repr

/-- JavaScript subtraction on possibly non-finite numbers
(`Infinity - Infinity` is `NaN`, `-Infinity - x` is `-Infinity`, ...). -/
def JSNum.sub : JSNum → JSNum → JSNum
  | nan, _ => nan
  | _, nan => nan
  | posInf, posInf => nan
  | posInf, _ => posInf
  | negInf, negInf => nan
  | negInf, _ => negInf
  | finite _, posInf => negInf
  | finite _, negInf => posInf
  | finite a, finite b => finite (a - b)

/-- JavaScript division on possibly non-finite numbers (`∞/∞` and `0/0`
are `NaN`, a finite value over an infinity is zero, a nonzero finite
value over zero is a signed infinity). -/
def JSNum.div : JSNum → JSNum → JSNum
  | nan, _ => nan
  | _, nan => nan
  | posInf, posInf => nan
  | posInf, negInf => nan
  | negInf, posInf => nan
  | negInf, negInf => nan
  | posInf, finite b => if 0 ≤ b then posInf else negInf
  | negInf, finite b => if 0 ≤ b then negInf else posInf
  | finite _, posInf => finite 0
  | finite _, negInf => finite 0
  | finite a, finite b =>
    if b = 0 then
      if a = 0 then nan else if 0 < a then posInf else negInf
    else finite (a / b)

/-- `Math.max`: `NaN`-propagating maximum. -/
def JSNum.max : JSNum → JSNum → JSNum
  | nan, _ => nan
  | _, nan => nan
  | posInf, _ => posInf
  | _, posInf => posInf
  | negInf, b => b
  | a, negInf => a
  | finite a, finite b => finite (Max.max a b)

/-- `Math.min`: `NaN`-propagating minimum. -/
def JSNum.min : JSNum → JSNum → JSNum
  | nan, _ => nan
  | _, nan => nan
  | negInf, _ => negInf
  | _, negInf => negInf
  | posInf, b => b
  | a, posInf => a
  | finite a, finite b => finite (Min.min a b)

/-- A `THREE.Vector3` holding a bounding-box corner, whose components may
be infinite (the empty box). -/
structure JSVec3 where
  x : JSNum
  y : JSNum
  z : JSNum
deriving DecidableEq, Repr

/-- An axis-aligned bounding box (`THREE.Box3`) with componentwise
minimum and maximum corners. -/
structure Box3 where
  min : JSVec3
  max : JSVec3
deriving DecidableEq, Repr

/-- `new THREE.Box3()`: an empty box, corners at plus and minus
infinity. -/
def Box3.empty : Box3 :=
  ⟨⟨JSNum.posInf, JSNum.posInf, JSNum.posInf⟩,
    ⟨JSNum.negInf, JSNum.negInf, JSNum.negInf⟩⟩

/-- `THREE.Box3#expandByPoint`: componentwise `Math.min`/`Math.max` of
the corners with the point. -/
def Box3.expandByPoint (b : Box3) (p : Vec3) : Box3 :=
  { min := ⟨b.min.x.min (JSNum.finite p.x), b.min.y.min (JSNum.finite p.y),
      b.min.z.min (JSNum.finite p.z)⟩
    max := ⟨b.max.x.max (JSNum.finite p.x), b.max.y.max (JSNum.finite p.y),
      b.max.z.max (JSNum.finite p.z)⟩ }

/-- The box built by `positions.forEach(pos =>
boundingBox.expandByPoint(pos))` starting from `new THREE.Box3()`; for an
empty position list the corners stay at their infinities. -/
def boundingBoxOf (positions : List Vec3) : Box3 :=
  positions.foldl Box3.expandByPoint Box3.empty

/-- A `d3.scaleLinear()` with a `domain` and a `range` set; the service
only ever constructs these two-point scales, so the embedding keeps
exactly the stored endpoints. -/
structure ScaleLinear where
  domain : JSNum × JSNum
  range : JSNum × JSNum
deriving DecidableEq, Repr

/-- `ChromosomeInterval(chr, start, end)` as constructed by
`loadChromosomeAsync` (`end` is a Lean keyword, so the field is `stop`). -/
structure ChromosomeInterval where
  chr : String
  start : ℚ
  stop : ℚ
deriving DecidableEq, Repr

/-- `ChromosomeModelDetails`: the memoized per-chromosome geometry. -/
structure ChromosomeModelDetails where
  boundingBox : Box3
  x : ScaleLinear
  y : ScaleLinear
  z : ScaleLinear
  positions : List Vec3
  genomicCoords : List (ℚ × ℚ)
  interval : ChromosomeInterval
deriving DecidableEq, Repr

/-- The parsed JSON document fetched from `/models/(chr).json`:
`genomicCoords` is a list of `[start, end]` pairs and `xyzPositions` a
list of 3-D points. -/
structure FetchedData where
  genomicCoords : List (ℚ × ℚ)
  xyzPositions : List Vec3
deriving DecidableEq, Repr

/-- The state of a `GenomeModelService` instance: its `loadedChromosomes`
cache. -/
structure GenomeModelService where
  loadedChromosomes : List (String × ChromosomeModelDetails)
deriving DecidableEq, Repr

/-- A freshly constructed service: empty cache. -/
def GenomeModelService.empty : GenomeModelService := ⟨[]⟩

/-- `GenomeModelService.hasChromosome(chr)`:
`!!this.loadedChromosomes[chr]` (a stored details object is always
truthy). -/
def GenomeModelService.hasChromosome (s : GenomeModelService)
    (chr : String) : Bool :=
  (s.loadedChromosomes.lookup chr).isSome

/-- `GenomeModelService.loadChromosome(chr)`: returns the cached details
when present, otherwise throws `Error('chromosome (chr) not loaded')`.
The state is returned alongside the result to make explicit that the
method never writes the cache. -/
def GenomeModelService.loadChromosome (s : GenomeModelService)
    (chr : String) :
    Except String ChromosomeModelDetails × GenomeModelService :=
  match s.loadedChromosomes.lookup chr with
  | some details => (Except.ok details, s)
  | none => (Except.error ("chromosome " ++ chr ++ " not loaded"), s)

/-- The body of `loadChromosomeAsync` after a successful fetch: bounding
box over the positions, the `chr21` interval from the first and last
genomic coordinate, and the three linear scales whose ranges divide each
axis length by the largest one.  `none` models only the thrown
`TypeError` when `genomicCoords` is empty (`genomicCoords[0][0]` on
`undefined`); an empty `xyzPositions` list is still a success whose box
keeps its infinite corners and whose scale ranges come out as
`[0, NaN]`, exactly as the source computes. -/
def computeChromosomeDetails (data : FetchedData) :
    Option ChromosomeModelDetails :=
  match data.genomicCoords.head?, data.genomicCoords.getLast? with
  | some firstCoords, some lastCoords =>
    let boundingBox := boundingBoxOf data.xyzPositions
    let interval : ChromosomeInterval :=
      ⟨"chr21", firstCoords.1, lastCoords.2⟩
    let xLen := boundingBox.max.x.sub boundingBox.min.x
    let yLen := boundingBox.max.y.sub boundingBox.min.y
    let zLen := boundingBox.max.z.sub boundingBox.min.z
    let largestLen := JSNum.max xLen (JSNum.max yLen zLen)
    some
      { boundingBox := boundingBox
        x := ⟨(boundingBox.min.x, boundingBox.max.x),
          (JSNum.finite 0, xLen.div largestLen)⟩
        y := ⟨(boundingBox.min.y, boundingBox.max.y),
          (JSNum.finite 0, yLen.div largestLen)⟩
        z := ⟨(boundingBox.min.z, boundingBox.max.z),
          (JSNum.finite 0, zLen.div largestLen)⟩
        positions := data.xyzPositions
        genomicCoords := data.genomicCoords
        interval := interval }
  | _, _ => none

/-- `GenomeModelService.loadChromosomeAsync(chr)`: returns the cached
entry when present (without fetching); otherwise fetches
`/models/(chr).json` — here the `fetchResult` parameter, `none` when the
fetch rejects — computes the details and stores them under `chr` before
returning the stored entry.  `none` models a rejected promise (failed
fetch, or the exceptions of `computeChromosomeDetails`); in every such
case the failure happens before the cache assignment, so the state is
unchanged. -/
def GenomeModelService.loadChromosomeAsync (s : GenomeModelService)
    (chr : String) (fetchResult : Option FetchedData) :
    Option (ChromosomeModelDetails × GenomeModelService) :=
  match s.loadedChromosomes.lookup chr with
  | some details => some (details, s)
  | none =>
    match fetchResult with
    | none => none
    | some data =>
      match computeChromosomeDetails data with
      | none => none
      | some details =>
        some (details, ⟨(chr, details) :: s.loadedChromosomes⟩)

/-- One event in a history of `loadChromosomeAsync` calls: the requested
chromosome id and what the fetch would deliver for it. -/
def GenomeModelService.step (s : GenomeModelService)
    (call : String × Option FetchedData) : GenomeModelService :=
  match s.loadChromosomeAsync call.1 call.2 with
  | some (_, s') => s'
  | none => s

/-- Run a history of `loadChromosomeAsync` calls from a given state. -/
def GenomeModelService.run (s : GenomeModelService)
    (calls : List (String × Option FetchedData)) : GenomeModelService :=
  calls.foldl GenomeModelService.step s

/-- Whether a fetch delivery lets a fresh (uncached) `loadChromosomeAsync`
succeed: the fetch resolved and `genomicCoords` is nonempty (reading
`genomicCoords[0][0]` of an empty list throws).  An empty `xyzPositions`
list is still a success: the box simply keeps its infinite corners and a
degenerate entry is cached. -/
def validDelivery (fetchResult : Option FetchedData) : Bool :=
  match fetchResult with
  | none => false
  | some data => !data.genomicCoords.isEmpty

/-- A concrete fetched document used in witnesses: the spec's scenario
with positions bounding box [0,0,0]-[10,5,2]. -/
def sampleData : FetchedData :=
  { genomicCoords := [(0, 100)]
    xyzPositions := [⟨0, 0, 0⟩, ⟨10, 5, 2⟩] }

/-- The details computed from `sampleData`: largest axis length 10, so the
scale ranges are [0,1], [0,1/2] and [0,1/5]. -/
def sampleDetails : ChromosomeModelDetails :=
  { boundingBox := ⟨⟨JSNum.finite 0, JSNum.finite 0, JSNum.finite 0⟩,
      ⟨JSNum.finite 10, JSNum.finite 5, JSNum.finite 2⟩⟩
    x := ⟨(JSNum.finite 0, JSNum.finite 10),
      (JSNum.finite 0, JSNum.finite 1)⟩
    y := ⟨(JSNum.finite 0, JSNum.finite 5),
      (JSNum.finite 0, JSNum.finite (1/2))⟩
    z := ⟨(JSNum.finite 0, JSNum.finite 2),
      (JSNum.finite 0, JSNum.finite (1/5))⟩
    positions := [⟨0, 0, 0⟩, ⟨10, 5, 2⟩]
    genomicCoords := [(0, 100)]
    interval := ⟨"chr21", 0, 100⟩ }

/-! ## Shared lemmas -/

/-- Writing back the element already stored at an index leaves the list
unchanged. -/
theorem set_of_getElem?_eq {α : Type} (l : List α) :
    ∀ (i : Nat) (a : α), l[i]? = some a → l.set i a = l := by
  induction l with
  | nil => intro i a h; simp at h
  | cons x xs ih =>
    intro i a h
    cases i with
    | zero =>
      simp only [List.getElem?_cons_zero, Option.some.injEq] at h
      simp [h]
    | succ n =>
      simp only [List.getElem?_cons_succ] at h
      simp [ih n a h]

/-! ## Theorems for the claims -/

/-- C4: toggling the selection of the track at a valid index `i` and then
toggling it again yields a collection equal (value semantics) to the
original collection. -/
theorem toggleOneTrack_toggle_again (tracks : List TrackModel) (index : Nat)
    (h : index < tracks.length) :
    (toggleOneTrack tracks index).bind
        (fun next => toggleOneTrack next index) = some tracks := by
  obtain ⟨t, ht⟩ : ∃ t, tracks[index]? = some t :=
    ⟨_, List.getElem?_eq_getElem h⟩
  have h2 : (tracks.set index { t with isSelected := !t.isSelected })[index]? =
      some { t with isSelected := !t.isSelected } :=
    List.getElem?_set_self (by simpa using h)
  simp only [toggleOneTrack, ht, Option.map_some', Option.some_bind, h2,
    List.set_set]
  cases t with
  | mk tid tpay tsel =>
    simpa [Bool.not_not] using
      congrArg some (set_of_getElem?_eq tracks index _ ht)

/-- C4 witness: a concrete two-track collection at index 0. -/
theorem toggleOneTrack_toggle_again_witness :
    (toggleOneTrack [⟨"a", "", false⟩, ⟨"b", "", false⟩] 0).bind
        (fun next => toggleOneTrack next 0) =
      some [⟨"a", "", false⟩, ⟨"b", "", false⟩] :=
  toggleOneTrack_toggle_again [⟨"a", "", false⟩, ⟨"b", "", false⟩] 0
    (by decide)

/-- C5: a left-click on a valid track index with the control key held
emits the collection in which that track's `isSelected` flag is negated
and every other position holds the same, untouched element; a click with
any other button, or without the control key, emits nothing. -/
theorem trackClicked_spec (tracks : List TrackModel) (index : Nat)
    (t : TrackModel) (ht : tracks[index]? = some t) :
    (trackClicked MouseButtons.LEFT true tracks index =
        some (tracks.set index { t with isSelected := !t.isSelected }) ∧
      (tracks.set index { t with isSelected := !t.isSelected })[index]? =
        some { t with isSelected := !t.isSelected } ∧
      ∀ j, j ≠ index →
        (tracks.set index { t with isSelected := !t.isSelected })[j]? =
          tracks[j]?) ∧
    ∀ (button : MouseButton) (ctrlKey : Bool),
      ¬(button = MouseButtons.LEFT ∧ ctrlKey = true) →
      trackClicked button ctrlKey tracks index = none := by
  have hidx : index < tracks.length := by
    have := List.getElem?_eq_some_iff.mp ht
    exact this.1
  refine ⟨⟨?_, ?_, ?_⟩, ?_⟩
  · simp [trackClicked, toggleOneTrack, ht]
  · exact List.getElem?_set_self (by simpa using hidx)
  · intro j hj
    exact List.getElem?_set_ne (Ne.symm hj)
  · intro button ctrlKey hnot
    simp only [trackClicked, if_neg hnot]

/-- C5 witness: the spec's two-track scenario, toggling index 0. -/
theorem trackClicked_spec_witness :
    trackClicked MouseButtons.LEFT true
        [⟨"a", "", false⟩, ⟨"b", "", false⟩] 0 =
      some [⟨"a", "", true⟩, ⟨"b", "", false⟩] :=
  (trackClicked_spec [⟨"a", "", false⟩, ⟨"b", "", false⟩] 0
    ⟨"a", "", false⟩ rfl).1.1

/-- C6: after an outside click the resulting collection (the emitted one,
or the unchanged original when no track was selected and nothing is
emitted) has the same length and order, every track's `isSelected` flag is
false, and every non-selection field is unchanged. -/
theorem handleOutsideClick_spec (tracks : List TrackModel) :
    ((handleOutsideClick tracks).getD tracks).length = tracks.length ∧
    List.Forall₂
      (fun t u => u.id = t.id ∧ u.payload = t.payload ∧ u.isSelected = false)
      tracks ((handleOutsideClick tracks).getD tracks) := by
  have hforall : List.Forall₂
      (fun t u => u.id = t.id ∧ u.payload = t.payload ∧ u.isSelected = false)
      tracks ((handleOutsideClick tracks).getD tracks) := by
    by_cases hsel : tracks.any (fun track => track.isSelected)
    · simp only [handleOutsideClick, if_pos hsel, Option.getD_some,
        deselectAllTracks]
      rw [List.forall₂_map_right_iff, List.forall₂_same]
      intro t _
      by_cases hts : t.isSelected <;> simp [hts]
    · simp only [handleOutsideClick, if_neg hsel, Option.getD_none]
      rw [List.forall₂_same]
      intro t htmem
      have hfalse : t.isSelected = false := by
        by_contra hne
        exact hsel (List.any_eq_true.mpr ⟨t, htmem, by simpa using hne⟩)
      exact ⟨rfl, rfl, hfalse⟩
  exact ⟨(hforall.length_eq).symm, hforall⟩

/-- C10: `shouldFetchBecauseOptionChange` returns true exactly when the
`normalization` fields differ or the `binSize` fields differ; options
agreeing on those two fields never trigger a refetch, whatever their other
fields. -/
theorem shouldFetchBecauseOptionChange_iff
    (oldOptions newOptions : TrackOptions) :
    shouldFetchBecauseOptionChange oldOptions newOptions = true ↔
      (oldOptions.normalization ≠ newOptions.normalization ∨
        oldOptions.binSize ≠ newOptions.binSize) := by
  simp [shouldFetchBecauseOptionChange]

/-- C3: `loadChromosome(chr)` returns the cached details when the cache
holds an entry for `chr`, and otherwise fails with an error whose message
carries the chromosome id; in the failure case the cache is left
unchanged. -/
theorem loadChromosome_spec (s : GenomeModelService) (chr : String) :
    (∀ details, s.loadedChromosomes.lookup chr = some details →
      s.loadChromosome chr = (Except.ok details, s)) ∧
    (s.loadedChromosomes.lookup chr = none →
      s.loadChromosome chr =
          (Except.error ("chromosome " ++ chr ++ " not loaded"), s) ∧
        ∃ pre post, "chromosome " ++ chr ++ " not loaded" =
          pre ++ chr ++ post) := by
  constructor
  · intro details hd
    simp [GenomeModelService.loadChromosome, hd]
  · intro hnone
    exact ⟨by simp [GenomeModelService.loadChromosome, hnone],
      "chromosome ", " not loaded", rfl⟩

/-- C3 witness: an empty cache misses `chr1`. -/
theorem loadChromosome_spec_witness :
    GenomeModelService.empty.loadChromosome "chr1" =
      (Except.error ("chromosome " ++ "chr1" ++ " not loaded"),
        GenomeModelService.empty) :=
  ((loadChromosome_spec GenomeModelService.empty "chr1").2 rfl).1


/-- Unfolding lemma: `loadChromosomeAsync` on a cached id returns the
cached entry and does not fetch. -/
theorem loadChromosomeAsync_of_hit (s : GenomeModelService) (chr : String)
    (fetchResult : Option FetchedData) (d : ChromosomeModelDetails)
    (h : s.loadedChromosomes.lookup chr = some d) :
    s.loadChromosomeAsync chr fetchResult = some (d, s) := by
  unfold GenomeModelService.loadChromosomeAsync
  rw [h]

/-- Unfolding lemma: on a cache miss with a rejected fetch the call fails
and the failure happens before any cache write. -/
theorem loadChromosomeAsync_of_rejected (s : GenomeModelService)
    (chr : String) (h : s.loadedChromosomes.lookup chr = none) :
    s.loadChromosomeAsync chr none = none := by
  unfold GenomeModelService.loadChromosomeAsync
  rw [h]

/-- Unfolding lemma: on a cache miss with a resolved fetch the call
computes the details and, when that succeeds, stores them under `chr`. -/
theorem loadChromosomeAsync_of_miss (s : GenomeModelService) (chr : String)
    (data : FetchedData) (h : s.loadedChromosomes.lookup chr = none) :
    s.loadChromosomeAsync chr (some data) =
      (computeChromosomeDetails data).map
        (fun d => (d, ⟨(chr, d) :: s.loadedChromosomes⟩)) := by
  unfold GenomeModelService.loadChromosomeAsync
  rw [h]
  cases hcomp : computeChromosomeDetails data <;> simp [hcomp]

/-- Inversion lemma: a successful `computeChromosomeDetails` run exposes
the bounding box, the first and last genomic coordinates, and the exact
record that was built. -/
theorem computeChromosomeDetails_inv (data : FetchedData)
    (d : ChromosomeModelDetails)
    (h : computeChromosomeDetails data = some d) :
    ∃ bb firstCoords lastCoords,
      boundingBoxOf data.xyzPositions = bb ∧
      data.genomicCoords.head? = some firstCoords ∧
      data.genomicCoords.getLast? = some lastCoords ∧
      d = { boundingBox := bb
            x := ⟨(bb.min.x, bb.max.x), (JSNum.finite 0, (bb.max.x.sub bb.min.x).div
              (JSNum.max (bb.max.x.sub bb.min.x)
                (JSNum.max (bb.max.y.sub bb.min.y)
                  (bb.max.z.sub bb.min.z))))⟩
            y := ⟨(bb.min.y, bb.max.y), (JSNum.finite 0, (bb.max.y.sub bb.min.y).div
              (JSNum.max (bb.max.x.sub bb.min.x)
                (JSNum.max (bb.max.y.sub bb.min.y)
                  (bb.max.z.sub bb.min.z))))⟩
            z := ⟨(bb.min.z, bb.max.z), (JSNum.finite 0, (bb.max.z.sub bb.min.z).div
              (JSNum.max (bb.max.x.sub bb.min.x)
                (JSNum.max (bb.max.y.sub bb.min.y)
                  (bb.max.z.sub bb.min.z))))⟩
            positions := data.xyzPositions
            genomicCoords := data.genomicCoords
            interval := ⟨"chr21", firstCoords.1, lastCoords.2⟩ } := by
  unfold computeChromosomeDetails at h
  cases hhd : data.genomicCoords.head? <;> rw [hhd] at h
  case none => simp at h
  case some firstCoords =>
  cases hlast : data.genomicCoords.getLast? <;> rw [hlast] at h
  case none => simp at h
  case some lastCoords =>
  simp only [Option.some.injEq] at h
  exact ⟨boundingBoxOf data.xyzPositions, firstCoords, lastCoords, rfl,
    rfl, rfl, h.symm⟩

/-- Evaluation of the sample document: bounding box [0,0,0]-[10,5,2],
largest axis length 10, scale ranges [0,1], [0,1/2], [0,1/5]. -/
theorem computeChromosomeDetails_sample :
    computeChromosomeDetails sampleData = some sampleDetails := by
  have hbb : boundingBoxOf sampleData.xyzPositions =
      ⟨⟨JSNum.finite 0, JSNum.finite 0, JSNum.finite 0⟩,
        ⟨JSNum.finite 10, JSNum.finite 5, JSNum.finite 2⟩⟩ := by
    norm_num [sampleData, boundingBoxOf, Box3.empty, Box3.expandByPoint,
      JSNum.min, JSNum.max, min_def, max_def]
  unfold computeChromosomeDetails
  rw [show sampleData.genomicCoords = [((0 : ℚ), (100 : ℚ))] from rfl, hbb]
  norm_num [sampleDetails, sampleData, JSNum.sub, JSNum.div, JSNum.max,
    max_def]

/-- Loading the sample document into an empty service succeeds and caches
`sampleDetails` under the requested id. -/
theorem loadChromosomeAsync_sample (chr : String) :
    GenomeModelService.empty.loadChromosomeAsync chr (some sampleData) =
      some (sampleDetails, ⟨[(chr, sampleDetails)]⟩) := by
  rw [loadChromosomeAsync_of_miss GenomeModelService.empty chr sampleData rfl,
    computeChromosomeDetails_sample]
  rfl

/-- C7: after a successful `loadChromosomeAsync(chr)` returning `details`
and leaving the service in state `s2`, `loadChromosome(chr)` returns the
very entry stored in the cache (the embedding's counterpart of reference
equality) without touching the state. -/
theorem loadChromosome_after_loadChromosomeAsync
    (s s2 : GenomeModelService) (chr : String)
    (fetchResult : Option FetchedData) (details : ChromosomeModelDetails)
    (h : s.loadChromosomeAsync chr fetchResult = some (details, s2)) :
    s2.loadChromosome chr = (Except.ok details, s2) := by
  cases hcache : s.loadedChromosomes.lookup chr with
  | some d =>
    rw [loadChromosomeAsync_of_hit s chr fetchResult d hcache] at h
    simp only [Option.some.injEq, Prod.mk.injEq] at h
    obtain ⟨hd, hs⟩ := h
    subst hd
    subst hs
    simp [GenomeModelService.loadChromosome, hcache]
  | none =>
    cases fetchResult with
    | none =>
      rw [loadChromosomeAsync_of_rejected s chr hcache] at h
      exact absurd h (by simp)
    | some data =>
      rw [loadChromosomeAsync_of_miss s chr data hcache] at h
      cases hcomp : computeChromosomeDetails data with
      | none => rw [hcomp] at h; simp at h
      | some d =>
        rw [hcomp] at h
        simp only [Option.map_some', Option.some.injEq, Prod.mk.injEq] at h
        obtain ⟨hd, hs⟩ := h
        subst hd
        subst hs
        simp [GenomeModelService.loadChromosome, List.lookup]

/-- C7 witness: loading the sample document for `chr21` into an empty
service, then reading it back. -/
theorem loadChromosome_after_loadChromosomeAsync_witness :
    GenomeModelService.loadChromosome ⟨[("chr21", sampleDetails)]⟩ "chr21" =
      (Except.ok sampleDetails, ⟨[("chr21", sampleDetails)]⟩) :=
  loadChromosome_after_loadChromosomeAsync GenomeModelService.empty
    ⟨[("chr21", sampleDetails)]⟩ "chr21" (some sampleData) sampleDetails
    (loadChromosomeAsync_sample "chr21")

/-- C9: a fresh successful `loadChromosomeAsync(chr)` stores and returns
details whose interval names the constant chromosome `chr21` whatever id
`chr` was requested; only the interval's endpoints (first entry's start,
last entry's end of `genomicCoords`) depend on the fetched data. -/
theorem loadChromosomeAsync_interval_chr21
    (s s2 : GenomeModelService) (chr : String) (data : FetchedData)
    (details : ChromosomeModelDetails)
    (hmiss : s.loadedChromosomes.lookup chr = none)
    (h : s.loadChromosomeAsync chr (some data) = some (details, s2)) :
    s2.loadedChromosomes.lookup chr = some details ∧
    ∃ firstCoords lastCoords,
      data.genomicCoords.head? = some firstCoords ∧
      data.genomicCoords.getLast? = some lastCoords ∧
      details.interval = ⟨"chr21", firstCoords.1, lastCoords.2⟩ := by
  rw [loadChromosomeAsync_of_miss s chr data hmiss] at h
  cases hcomp : computeChromosomeDetails data with
  | none => rw [hcomp] at h; simp at h
  | some d =>
    rw [hcomp] at h
    simp only [Option.map_some', Option.some.injEq, Prod.mk.injEq] at h
    obtain ⟨hd, hs⟩ := h
    subst hd
    constructor
    · rw [← hs]
      simp [List.lookup]
    · obtain ⟨bb, firstCoords, lastCoords, hbb, hhd, hlast, hdd⟩ :=
        computeChromosomeDetails_inv data _ hcomp
      exact ⟨firstCoords, lastCoords, hhd, hlast, by rw [hdd]⟩

/-- C9 witness: requesting id `foo` still stores the `chr21` interval. -/
theorem loadChromosomeAsync_interval_chr21_witness :
    (⟨[("foo", sampleDetails)]⟩ : GenomeModelService).loadedChromosomes.lookup
        "foo" = some sampleDetails ∧
    ∃ firstCoords lastCoords,
      sampleData.genomicCoords.head? = some firstCoords ∧
      sampleData.genomicCoords.getLast? = some lastCoords ∧
      sampleDetails.interval = ⟨"chr21", firstCoords.1, lastCoords.2⟩ :=
  loadChromosomeAsync_interval_chr21 GenomeModelService.empty
    ⟨[("foo", sampleDetails)]⟩ "foo" sampleData sampleDetails rfl
    (loadChromosomeAsync_sample "foo")

/-- `Math.max` returns one of its arguments or `NaN`. -/
theorem JSNum.max_cases (a b : JSNum) :
    JSNum.max a b = a ∨ JSNum.max a b = b ∨ JSNum.max a b = JSNum.nan := by
  cases a <;> cases b <;> simp [JSNum.max]
  exact le_total _ _

/-- Dividing a nonzero finite value by itself gives 1. -/
theorem JSNum.div_self_finite (q : ℚ) (hq : q ≠ 0) :
    (JSNum.finite q).div (JSNum.finite q) = JSNum.finite 1 := by
  simp [JSNum.div, hq, div_self hq]

/-- Arithmetic helper: when a three-way `Math.max` is a positive finite
value, at least one argument divided by the maximum gives 1. -/
theorem JSNum.div_max_three (a b c : JSNum) (q : ℚ)
    (hL : JSNum.max a (JSNum.max b c) = JSNum.finite q) (hq : 0 < q) :
    a.div (JSNum.max a (JSNum.max b c)) = JSNum.finite 1 ∨
    b.div (JSNum.max a (JSNum.max b c)) = JSNum.finite 1 ∨
    c.div (JSNum.max a (JSNum.max b c)) = JSNum.finite 1 := by
  rcases JSNum.max_cases a (JSNum.max b c) with h1 | h1 | h1
  · left
    have ha : a = JSNum.finite q := h1.symm.trans hL
    rw [hL, ha]
    exact JSNum.div_self_finite q (ne_of_gt hq)
  · rcases JSNum.max_cases b c with h2 | h2 | h2
    · right; left
      have hb : b = JSNum.finite q := (h1.trans h2).symm.trans hL
      rw [hL, hb]
      exact JSNum.div_self_finite q (ne_of_gt hq)
    · right; right
      have hc : c = JSNum.finite q := (h1.trans h2).symm.trans hL
      rw [hL, hc]
      exact JSNum.div_self_finite q (ne_of_gt hq)
    · rw [h1] at hL
      rw [h2] at hL
      simp at hL
  · rw [h1] at hL
    simp at hL

/-- C2: a fresh successful `loadChromosomeAsync` stores scales whose
domains are the bounding-box minimum/maximum per axis and whose ranges
are [0, axis length / largest axis length]; when the largest axis length
is a positive finite value, the longest axis's range is [0, 1]. -/
theorem loadChromosomeAsync_scales
    (s s2 : GenomeModelService) (chr : String) (data : FetchedData)
    (details : ChromosomeModelDetails)
    (hmiss : s.loadedChromosomes.lookup chr = none)
    (h : s.loadChromosomeAsync chr (some data) = some (details, s2)) :
    ∃ bb, boundingBoxOf data.xyzPositions = bb ∧
      details.boundingBox = bb ∧
      details.x.domain = (bb.min.x, bb.max.x) ∧
      details.y.domain = (bb.min.y, bb.max.y) ∧
      details.z.domain = (bb.min.z, bb.max.z) ∧
      details.x.range = (JSNum.finite 0, (bb.max.x.sub bb.min.x).div
        (JSNum.max (bb.max.x.sub bb.min.x)
          (JSNum.max (bb.max.y.sub bb.min.y) (bb.max.z.sub bb.min.z)))) ∧
      details.y.range = (JSNum.finite 0, (bb.max.y.sub bb.min.y).div
        (JSNum.max (bb.max.x.sub bb.min.x)
          (JSNum.max (bb.max.y.sub bb.min.y) (bb.max.z.sub bb.min.z)))) ∧
      details.z.range = (JSNum.finite 0, (bb.max.z.sub bb.min.z).div
        (JSNum.max (bb.max.x.sub bb.min.x)
          (JSNum.max (bb.max.y.sub bb.min.y) (bb.max.z.sub bb.min.z)))) ∧
      (∀ q : ℚ,
        JSNum.max (bb.max.x.sub bb.min.x)
            (JSNum.max (bb.max.y.sub bb.min.y) (bb.max.z.sub bb.min.z)) =
          JSNum.finite q → 0 < q →
        details.x.range = (JSNum.finite 0, JSNum.finite 1) ∨
          details.y.range = (JSNum.finite 0, JSNum.finite 1) ∨
          details.z.range = (JSNum.finite 0, JSNum.finite 1)) := by
  rw [loadChromosomeAsync_of_miss s chr data hmiss] at h
  cases hcomp : computeChromosomeDetails data with
  | none => rw [hcomp] at h; simp at h
  | some d =>
    rw [hcomp] at h
    simp only [Option.map_some', Option.some.injEq, Prod.mk.injEq] at h
    obtain ⟨hd, -⟩ := h
    subst hd
    obtain ⟨bb, firstCoords, lastCoords, hbb, hhd, hlast, hdd⟩ :=
      computeChromosomeDetails_inv data _ hcomp
    subst hdd
    refine ⟨bb, hbb, rfl, rfl, rfl, rfl, rfl, rfl, rfl, ?_⟩
    intro q hL hq
    rcases JSNum.div_max_three (bb.max.x.sub bb.min.x)
        (bb.max.y.sub bb.min.y) (bb.max.z.sub bb.min.z) q hL hq with
      h1 | h1 | h1
    · exact Or.inl (congrArg (Prod.mk (JSNum.finite 0)) h1)
    · exact Or.inr (Or.inl (congrArg (Prod.mk (JSNum.finite 0)) h1))
    · exact Or.inr (Or.inr (congrArg (Prod.mk (JSNum.finite 0)) h1))

/-- C2 witness: the spec's scenario, bounding box [0,0,0]-[10,5,2], with
scale ranges [0,1], [0,1/2] and [0,1/5]. -/
theorem loadChromosomeAsync_scales_witness :
    sampleDetails.x.range = (JSNum.finite 0, JSNum.finite 1) ∧
    sampleDetails.y.range = (JSNum.finite 0, JSNum.finite (1/2)) ∧
    sampleDetails.z.range = (JSNum.finite 0, JSNum.finite (1/5)) ∧
    ∃ bb, boundingBoxOf sampleData.xyzPositions = bb ∧
      sampleDetails.boundingBox = bb := by
  obtain ⟨bb, hbb, hdet, -⟩ :=
    loadChromosomeAsync_scales GenomeModelService.empty
      ⟨[("chr21", sampleDetails)]⟩ "chr21" sampleData sampleDetails rfl
      (loadChromosomeAsync_sample "chr21")
  exact ⟨rfl, rfl, rfl, bb, hbb, hdet⟩

/-- A successful `computeChromosomeDetails` run implies the fetched
document was valid (nonempty `genomicCoords`). -/
theorem computeChromosomeDetails_valid (data : FetchedData)
    (d : ChromosomeModelDetails)
    (h : computeChromosomeDetails data = some d) :
    validDelivery (some data) = true := by
  obtain ⟨bb, firstCoords, lastCoords, hbb, hhd, hlast, -⟩ :=
    computeChromosomeDetails_inv data d h
  rcases data with ⟨gc, ps⟩
  cases gc with
  | nil => simp at hhd
  | cons g gs => rfl

/-- A valid fetched document makes `computeChromosomeDetails` succeed —
whether or not it contains any positions. -/
theorem validDelivery_compute (data : FetchedData)
    (h : validDelivery (some data) = true) :
    ∃ d, computeChromosomeDetails data = some d := by
  rcases data with ⟨gc, ps⟩
  cases gc with
  | nil => simp [validDelivery] at h
  | cons g gs => exact ⟨_, rfl⟩

/-- `isSome` of an association-list lookup through a cons cell. -/
theorem lookup_cons_isSome (chr cid : String) (d : ChromosomeModelDetails)
    (rest : List (String × ChromosomeModelDetails)) :
    (((cid, d) :: rest).lookup chr).isSome =
      (chr == cid || (rest.lookup chr).isSome) := by
  cases hbeq : chr == cid <;> simp [List.lookup, hbeq]

/-- One `loadChromosomeAsync` call never evicts a cached chromosome. -/
theorem step_hasChromosome_true (s : GenomeModelService) (chr : String)
    (call : String × Option FetchedData)
    (h : s.hasChromosome chr = true) :
    (s.step call).hasChromosome chr = true := by
  unfold GenomeModelService.step
  rcases call with ⟨cid, fr⟩
  cases hcache : s.loadedChromosomes.lookup cid with
  | some d => rw [loadChromosomeAsync_of_hit s cid fr d hcache]; exact h
  | none =>
    cases fr with
    | none => rw [loadChromosomeAsync_of_rejected s cid hcache]; exact h
    | some data =>
      rw [loadChromosomeAsync_of_miss s cid data hcache]
      cases hcomp : computeChromosomeDetails data with
      | none => exact h
      | some d =>
        show GenomeModelService.hasChromosome
          ⟨(cid, d) :: s.loadedChromosomes⟩ chr = true
        unfold GenomeModelService.hasChromosome at h ⊢
        rw [lookup_cons_isSome, h, Bool.or_true]

/-- A call that is not a successful fetch of `chr` cannot make `chr`
appear in the cache. -/
theorem step_hasChromosome_absent (s : GenomeModelService) (chr : String)
    (call : String × Option FetchedData)
    (h : s.hasChromosome chr = false)
    (hcall : call.1 ≠ chr ∨ validDelivery call.2 = false) :
    (s.step call).hasChromosome chr = false := by
  unfold GenomeModelService.step
  rcases call with ⟨cid, fr⟩
  cases hcache : s.loadedChromosomes.lookup cid with
  | some d => rw [loadChromosomeAsync_of_hit s cid fr d hcache]; exact h
  | none =>
    cases fr with
    | none => rw [loadChromosomeAsync_of_rejected s cid hcache]; exact h
    | some data =>
      rw [loadChromosomeAsync_of_miss s cid data hcache]
      cases hcomp : computeChromosomeDetails data with
      | none => exact h
      | some d =>
        have hne : cid ≠ chr := by
          rcases hcall with hne | hinv
          · exact hne
          · exact absurd (computeChromosomeDetails_valid data d hcomp)
              (by simp [hinv])
        show GenomeModelService.hasChromosome
          ⟨(cid, d) :: s.loadedChromosomes⟩ chr = false
        unfold GenomeModelService.hasChromosome at h ⊢
        rw [lookup_cons_isSome, h, Bool.or_false]
        exact beq_eq_false_iff_ne.mpr (Ne.symm hne)

/-- A call for `chr` whose fetch delivers a valid document leaves `chr`
cached. -/
theorem step_hasChromosome_success (s : GenomeModelService) (chr : String)
    (fr : Option FetchedData) (hvalid : validDelivery fr = true) :
    (s.step (chr, fr)).hasChromosome chr = true := by
  unfold GenomeModelService.step
  cases hcache : s.loadedChromosomes.lookup chr with
  | some d =>
    rw [loadChromosomeAsync_of_hit s chr fr d hcache]
    unfold GenomeModelService.hasChromosome
    rw [hcache]
    rfl
  | none =>
    cases fr with
    | none => simp [validDelivery] at hvalid
    | some data =>
      rw [loadChromosomeAsync_of_miss s chr data hcache]
      obtain ⟨d, hcomp⟩ := validDelivery_compute data hvalid
      rw [hcomp]
      show GenomeModelService.hasChromosome
        ⟨(chr, d) :: s.loadedChromosomes⟩ chr = true
      unfold GenomeModelService.hasChromosome
      rw [lookup_cons_isSome]
      simp

/-- A cached chromosome stays cached through any run of calls. -/
theorem run_hasChromosome_mono (chr : String) :
    ∀ (calls : List (String × Option FetchedData)) (s : GenomeModelService),
      s.hasChromosome chr = true → (s.run calls).hasChromosome chr = true := by
  intro calls
  induction calls with
  | nil => intro s h; exact h
  | cons c cs ih =>
    intro s h
    exact ih (s.step c) (step_hasChromosome_true s chr c h)

/-- A chromosome absent from the cache stays absent through any run of
calls none of which successfully fetches it. -/
theorem run_hasChromosome_absent (chr : String) :
    ∀ (calls : List (String × Option FetchedData)) (s : GenomeModelService),
      s.hasChromosome chr = false →
      (∀ call ∈ calls, call.1 = chr → validDelivery call.2 = false) →
      (s.run calls).hasChromosome chr = false := by
  intro calls
  induction calls with
  | nil => intro s h _; exact h
  | cons c cs ih =>
    intro s h hall
    have hc : c.1 ≠ chr ∨ validDelivery c.2 = false := by
      by_cases hce : c.1 = chr
      · exact Or.inr (hall c (List.mem_cons_self c cs) hce)
      · exact Or.inl hce
    exact ih (s.step c) (step_hasChromosome_absent s chr c h hc)
      (fun call hm hkey => hall call (List.mem_cons_of_mem c hm) hkey)

/-- A run containing a successful fetch of `chr` ends with `chr`
cached. -/
theorem run_hasChromosome_success (chr : String) :
    ∀ (calls : List (String × Option FetchedData)) (s : GenomeModelService),
      (∃ call ∈ calls, call.1 = chr ∧ validDelivery call.2 = true) →
      (s.run calls).hasChromosome chr = true := by
  intro calls
  induction calls with
  | nil => intro s h; simp at h
  | cons c cs ih =>
    intro s h
    obtain ⟨call, hmem, hkey, hvalid⟩ := h
    rcases List.mem_cons.mp hmem with heq | hmem2
    · subst heq
      rcases call with ⟨cid, fr⟩
      subst hkey
      exact run_hasChromosome_mono cid cs (s.step (cid, fr))
        (step_hasChromosome_success s cid fr hvalid)
    · exact ih (s.step c) ⟨call, hmem2, hkey, hvalid⟩

/-- C8: `hasChromosome(chr)` is false on a fresh service, stays false
through any sequence of `loadChromosomeAsync` calls that never
successfully fetches `chr` (whatever is done for other ids), and is true
after any run containing a successful fetch of `chr`. -/
theorem hasChromosome_spec (chr : String)
    (calls : List (String × Option FetchedData)) :
    GenomeModelService.empty.hasChromosome chr = false ∧
    ((∀ call ∈ calls, call.1 = chr → validDelivery call.2 = false) →
      (GenomeModelService.empty.run calls).hasChromosome chr = false) ∧
    ((∃ call ∈ calls, call.1 = chr ∧ validDelivery call.2 = true) →
      (GenomeModelService.empty.run calls).hasChromosome chr = true) :=
  ⟨rfl,
    fun hall =>
      run_hasChromosome_absent chr calls GenomeModelService.empty rfl hall,
    fun hex => run_hasChromosome_success chr calls GenomeModelService.empty hex⟩

/-- C8 witness: a failed fetch for `chr2` followed by a successful fetch
of the sample document for `chr21`; and a fetch delivering a document
with empty `xyzPositions` still counts as a success and caches its
chromosome. -/
theorem hasChromosome_spec_witness :
    GenomeModelService.empty.hasChromosome "chr21" = false ∧
    (GenomeModelService.empty.run
        [("chr2", none), ("chr21", some sampleData)]).hasChromosome
      "chr21" = true ∧
    (GenomeModelService.empty.run
        [("chrE", some ⟨[(0, 1)], []⟩)]).hasChromosome "chrE" = true :=
  ⟨(hasChromosome_spec "chr21" []).1,
    (hasChromosome_spec "chr21"
        [("chr2", none), ("chr21", some sampleData)]).2.2
      ⟨("chr21", some sampleData), by simp, rfl, rfl⟩,
    (hasChromosome_spec "chrE" [("chrE", some ⟨[(0, 1)], []⟩)]).2.2
      ⟨("chrE", some ⟨[(0, 1)], []⟩), by simp, rfl, rfl⟩⟩

/-- Zooming scales the width by the zoom factor. -/
theorem zoom_getWidth (r : DisplayedRegionModel) (amount focusPoint : ℚ) :
    (r.zoom amount focusPoint).getWidth = r.getWidth * amount := by
  simp only [DisplayedRegionModel.zoom, DisplayedRegionModel.getWidth]
  ring

/-- C1 counterexample: with `MIN_VIEW_REGION_SIZE = 100` and a view of
width 200, zooming by factor 1/4 would give width 50, below the minimum;
the navigator keeps the previous width 200 — the width is not held at the
minimum 100 — and zooming by the inverse factor 4 afterwards yields width
800, not the original 200. -/
theorem navigatorZoom_clamp_counterexample :
    (navigatorZoom 100 ⟨0, 200⟩ (1/4) 0).getWidth = 200 ∧
    (navigatorZoom 100 ⟨0, 200⟩ (1/4) 0).getWidth ≠ 100 ∧
    (navigatorZoom 100 (navigatorZoom 100 ⟨0, 200⟩ (1/4) 0) 4 0).getWidth =
      800 ∧
    (navigatorZoom 100 (navigatorZoom 100 ⟨0, 200⟩ (1/4) 0) 4 0).getWidth ≠
      200 := by
  norm_num [navigatorZoom, setModelState, DisplayedRegionModel.zoom,
    DisplayedRegionModel.getWidth]

/-- C1 (amended): when the current width is at least
`MIN_VIEW_REGION_SIZE` and zooming by the nonzero factor `f` passes the
minimum-width check, zooming by `f` and then by `1/f` restores the
original width; and whenever a mutation would produce a width below
`MIN_VIEW_REGION_SIZE`, the navigator rejects the update and keeps the
previous region unchanged (rather than holding the width at the
minimum). -/
theorem navigatorZoom_roundtrip (minViewRegionSize : ℚ)
    (r : DisplayedRegionModel) (f p q : ℚ) (hf : f ≠ 0)
    (hcur : minViewRegionSize ≤ r.getWidth)
    (hfirst : minViewRegionSize ≤ r.getWidth * f) :
    (navigatorZoom minViewRegionSize
        (navigatorZoom minViewRegionSize r f p) (1 / f) q).getWidth =
      r.getWidth ∧
    ∀ next : DisplayedRegionModel,
      next.getWidth < minViewRegionSize →
      setModelState minViewRegionSize r next = r := by
  constructor
  · have h1 : navigatorZoom minViewRegionSize r f p = r.zoom f p := by
      unfold navigatorZoom setModelState
      rw [if_neg (not_lt.mpr (by rw [zoom_getWidth]; exact hfirst))]
    rw [h1]
    have h2 : ((r.zoom f p).zoom (1 / f) q).getWidth = r.getWidth := by
      rw [zoom_getWidth, zoom_getWidth, mul_assoc, mul_one_div, div_self hf,
        mul_one]
    unfold navigatorZoom setModelState
    rw [if_neg (not_lt.mpr (by rw [h2]; exact hcur)), h2]
  · intro next hlt
    unfold setModelState
    rw [if_pos hlt]

/-- C1 witness: width 200 with minimum 100, zoom factor 2 and back. -/
theorem navigatorZoom_roundtrip_witness :
    (navigatorZoom 100 (navigatorZoom 100 ⟨0, 200⟩ 2 0) (1 / 2) 0).getWidth =
      DisplayedRegionModel.getWidth ⟨0, 200⟩ ∧
    ∀ next : DisplayedRegionModel,
      next.getWidth < 100 → setModelState 100 ⟨0, 200⟩ next = ⟨0, 200⟩ :=
  navigatorZoom_roundtrip 100 ⟨0, 200⟩ 2 0 0 (by norm_num)
    (by norm_num [DisplayedRegionModel.getWidth])
    (by norm_num [DisplayedRegionModel.getWidth])
